import Mathlib

/-!
Verification of the goetgevonden client library (Python) against its
natural-language specification, via a shallow embedding of the data
models (`models.py`), the exception hierarchy (`exceptions.py`) and the
client request path (`client.py`) into Lean.

JSON values after parsing are modelled by the inductive `Json`; Python
`None` and JSON `null` are identified (as they are in Python after
`json` parsing).  Python dictionaries are modelled as association lists
with first-match lookup.  Fallible Python code (code that can raise
`AttributeError`, `TypeError` or `ValueError`) is modelled with
`Option`; the HTTP request path, which raises typed client exceptions,
is modelled with `Except`.
-/

namespace GoetGevonden

/-- A parsed JSON / Python value.  `null` stands for both JSON null and
Python `None`. -/
inductive Json where
  | null : Json
  | bool : Bool → Json
  | num : Int → Json
  | str : String → Json
  | arr : List Json → Json
  | obj : List (String × Json) → Json

/-- Python `dict.get(key, default)` on an object rendered as an
association list. -/
def dictGet (kvs : List (String × Json)) (key : String) (default : Json) : Json :=
  match kvs.lookup key with
  | some v => v
  | none => default

mutual

/-- Does a string occur anywhere inside a JSON value (as a string leaf
or as an object key)? -/
def Json.containsStr : Json → String → Bool
  | Json.str t, s => t == s
  | Json.arr xs, s => Json.listContainsStr xs s
  | Json.obj kvs, s => Json.kvContainsStr kvs s
  | _, _ => false

/-- `Json.containsStr` lifted over a list of values. -/
def Json.listContainsStr : List Json → String → Bool
  | [], _ => false
  | x :: xs, s => Json.containsStr x s || Json.listContainsStr xs s

/-- `Json.containsStr` lifted over object entries (keys included). -/
def Json.kvContainsStr : List (String × Json) → String → Bool
  | [], _ => false
  | (k, v) :: xs, s => k == s || Json.containsStr v s || Json.kvContainsStr xs s

end

/-- Python iteration (`for x in v`): lists iterate their elements,
dicts their keys, strings their characters; other values raise
`TypeError` (modelled as `none`). -/
def pyIter : Json → Option (List Json)
  | Json.arr xs => some xs
  | Json.obj kvs => some (kvs.map (fun kv => Json.str kv.1))
  | Json.str s => some (s.data.map (fun c => Json.str (String.mk [c])))
  | _ => none

/-- `models.SortOrder`: sort order for search results. -/
inductive SortOrder where
  | ASC : SortOrder
  | DESC : SortOrder
deriving DecidableEq

/-- The string value of a `SortOrder` member. -/
def SortOrder.value : SortOrder → String
  | SortOrder.ASC => "ASC"
  | SortOrder.DESC => "DESC"

/-- `models.ViewScope`: scope for view configurations. -/
inductive ViewScope where
  | OVERLAP : ViewScope
  | WITHIN : ViewScope
deriving DecidableEq

/-- The Python enum constructor `ViewScope(value)`: returns the member
with that value, or raises `ValueError` (modelled as `none`) for any
other value. -/
def ViewScope.ofValue : Json → Option ViewScope
  | Json.str "OVERLAP" => some ViewScope.OVERLAP
  | Json.str "WITHIN" => some ViewScope.WITHIN
  | _ => none

/-- `models.ViewAnnoConstraint`. -/
structure ViewAnnoConstraint where
  path : Json
  value : Json

/-- `ViewAnnoConstraint.from_dict`: requires a dict argument (`.get`
on a non-dict raises, modelled as `none`). -/
def ViewAnnoConstraint.from_dict : Json → Option ViewAnnoConstraint
  | Json.obj kvs =>
      some { path := dictGet kvs "path" (Json.str "")
           , value := dictGet kvs "value" (Json.str "") }
  | _ => none

/-- `models.ViewConfiguration`. -/
structure ViewConfiguration where
  anno : List ViewAnnoConstraint
  scope : ViewScope

/-- The list comprehension
`[ViewAnnoConstraint.from_dict(a) for a in ...]`: fails as soon as one
element fails. -/
def annoListFromDict : List Json → Option (List ViewAnnoConstraint)
  | [] => some []
  | x :: xs =>
    match ViewAnnoConstraint.from_dict x with
    | none => none
    | some c =>
      match annoListFromDict xs with
      | none => none
      | some cs => some (c :: cs)

/-- `ViewConfiguration.from_dict`: builds the constraint list from the
`anno` field (default `[]`), then the scope from `ViewScope(data.get
("scope", "OVERLAP"))`; any raised error is modelled as `none`. -/
def ViewConfiguration.from_dict (kvs : List (String × Json)) : Option ViewConfiguration :=
  match pyIter (dictGet kvs "anno" (Json.arr [])) with
  | none => none
  | some items =>
    match annoListFromDict items with
    | none => none
    | some anno =>
      match ViewScope.ofValue (dictGet kvs "scope" (Json.str "OVERLAP")) with
      | none => none
      | some scope => some { anno := anno, scope := scope }

/-- `models.IndexRange`: range specification for index queries. -/
structure IndexRange where
  name : String
  from_value : Option String := none
  to_value : Option String := none

/-- `IndexRange.to_dict`: `name` always, `from` / `to` only when set. -/
def IndexRange.to_dict (r : IndexRange) : List (String × Json) :=
  [("name", Json.str r.name)]
    ++ (match r.from_value with
        | some v => [("from", Json.str v)]
        | none => [])
    ++ (match r.to_value with
        | some v => [("to", Json.str v)]
        | none => [])

/-- `models.IndexQuery`: query parameters for searching an index. -/
structure IndexQuery where
  text : Option String := none
  terms : Option (List (String × Json)) := none
  date : Option IndexRange := none
  range : Option IndexRange := none
  aggs : Option (List (String × Json)) := none

/-- `IndexQuery.to_dict`: include exactly the keys whose field is set. -/
def IndexQuery.to_dict (q : IndexQuery) : List (String × Json) :=
  (match q.text with
   | some t => [("text", Json.str t)]
   | none => [])
  ++ (match q.terms with
      | some t => [("terms", Json.obj t)]
      | none => [])
  ++ (match q.date with
      | some d => [("date", Json.obj d.to_dict)]
      | none => [])
  ++ (match q.range with
      | some r => [("range", Json.obj r.to_dict)]
      | none => [])
  ++ (match q.aggs with
      | some a => [("aggs", Json.obj a)]
      | none => [])

/-- `models.SearchResult`.  The Python dataclass annotates `total : int`
and `hits : list`, but the constructor is handed whatever value the
response held, so the fields are modelled as raw `Json`.
`aggregations` is `Json.null` when the source field was absent (Python
`dict.get` conflates an absent key with a `null` value). -/
structure SearchResult where
  total : Json
  hits : Json
  aggregations : Json
  raw_response : Json

/-- The repeated total-resolution step of `SearchResult.from_dict`:
`if isinstance(total, dict): total = total.get("value", 0)`. -/
def resolveTotal (total : Json) : Json :=
  match total with
  | Json.obj tkvs => dictGet tkvs "value" (Json.num 0)
  | _ => total

/-- `SearchResult.from_dict`: Broccoli flat shape when a `results` key
is present, else the Elasticsearch nested shape.  In the nested shape
`hits_data.get` raises when the `hits` field is not a dict (modelled as
`none`). -/
def SearchResult.from_dict (kvs : List (String × Json)) : Option SearchResult :=
  if (kvs.lookup "results").isSome then
    some { total := resolveTotal (dictGet kvs "total" (Json.num 0))
         , hits := dictGet kvs "results" (Json.arr [])
         , aggregations := dictGet kvs "aggs" Json.null
         , raw_response := Json.obj kvs }
  else
    match dictGet kvs "hits" (Json.obj []) with
    | Json.obj hkvs =>
        some { total := resolveTotal (dictGet hkvs "total" (Json.num 0))
             , hits := dictGet hkvs "hits" (Json.arr [])
             , aggregations := dictGet kvs "aggregations" Json.null
             , raw_response := Json.obj kvs }
    | _ => none

/-- `models.Annotation`.  As with `SearchResult`, fields hold whatever
the response provided, so they are modelled as raw `Json`. -/
structure Annotation where
  body_id : Json
  body_type : Json
  annotations : Json
  raw_response : Json

/-- `Annotation.from_dict`: `body_id or data.get("bodyId", "")` (the
argument wins when non-empty, Python truthiness of `str`). -/
def Annotation.from_dict (kvs : List (String × Json)) (body_id : String := "") : Annotation :=
  { body_id := if body_id = "" then dictGet kvs "bodyId" (Json.str "") else Json.str body_id
  , body_type := dictGet kvs "bodyType" (Json.str "")
  , annotations := dictGet kvs "annotations" (Json.arr [])
  , raw_response := Json.obj kvs }

/-- One received HTTP response, as the client sees it: status code, the
result of attempting to parse the body as JSON (`none` when the body is
not valid JSON, i.e. `response.json()` raises `ValueError`), and the
raw body text. -/
structure HttpResponse where
  status : Nat
  bodyJson : Option Json
  bodyText : String

/-- `requests`' `response.ok`: true exactly when the status code is
below 400. -/
abbrev HttpResponse.ok (r : HttpResponse) : Prop := r.status < 400

/-- The data carried by `exceptions.APIError` (and its subclass
`NotFoundError`): message, optional status code, optional response
payload. -/
structure APIErrorData where
  message : String
  status_code : Option Nat
  response : Option Json

/-- The error outcomes of the shared request path `_request`
(connection and timeout failures happen before a response exists and
are outside this model). -/
inductive RequestError where
  | notFound : APIErrorData → RequestError
  | apiError : APIErrorData → RequestError

/-- The `NotFoundError` constructor: fixes `status_code = 404`,
`response` defaults to `None`. -/
def NotFoundError.make (message : String := "Resource not found")
    (response : Option Json := none) : APIErrorData :=
  { message := message, status_code := some 404, response := response }

/-- The error payload attached by `_request` to a non-404 error status:
the parsed JSON body, or a message object holding the raw text when the
body is not valid JSON. -/
def errorBody (resp : HttpResponse) : Json :=
  match resp.bodyJson with
  | some v => v
  | none => Json.obj [("message", Json.str resp.bodyText)]

/-- The success value produced by `_request` for a non-empty body:
the parsed JSON, or the raw text when parsing fails. -/
def parsedBody (resp : HttpResponse) : Json :=
  match resp.bodyJson with
  | some v => v
  | none => Json.str resp.bodyText

/-- `client.GoetGevondenClient._request`, from the point where a
response has been received: 404 raises `NotFoundError` (body ignored);
any other non-ok status raises `APIError` with the status code and the
parsed-or-text payload; a 204 status or empty body returns `None`;
otherwise the parsed JSON, falling back to the raw text. -/
def GoetGevondenClient.request (endpoint : String) (resp : HttpResponse) :
    Except RequestError Json :=
  if resp.status = 404 then
    Except.error (RequestError.notFound
      (NotFoundError.make ("Resource not found: " ++ endpoint)))
  else if ¬ resp.ok then
    Except.error (RequestError.apiError
      { message := "API error: " ++ toString resp.status
      , status_code := some resp.status
      , response := some (errorBody resp) })
  else if resp.status = 204 ∨ resp.bodyText = "" then
    Except.ok Json.null
  else
    Except.ok (parsedBody resp)

/-- `client.GoetGevondenClient.get_home_page`: issues a plain GET and
returns `response.text` with no status or JSON handling at all. -/
def GoetGevondenClient.get_home_page (resp : HttpResponse) :
    Except RequestError String :=
  Except.ok resp.bodyText

/-- The query parameters assembled by `get_annotations`:
`relativeTo` always, the three optional filters only when supplied. -/
def GoetGevondenClient.get_annotations_params
    (include_results views overlap_types : Option String)
    (relative_to : String := "Origin") : List (String × String) :=
  [("relativeTo", relative_to)]
    ++ (match include_results with
        | some v => [("includeResults", v)]
        | none => [])
    ++ (match views with
        | some v => [("views", v)]
        | none => [])
    ++ (match overlap_types with
        | some v => [("overlapTypes", v)]
        | none => [])

/-- `client.GoetGevondenClient.get_annotations`, from the point where a
response has been received: it returns the `_request` result for
`/projects/{project_id}/{body_id}` unchanged (the source returns the
raw parsed body; it does not pass it through `Annotation.from_dict`). -/
def GoetGevondenClient.get_annotations (project_id body_id : String)
    (resp : HttpResponse) : Except RequestError Json :=
  GoetGevondenClient.request ("/projects/" ++ project_id ++ "/" ++ body_id) resp

/-- The data of `exceptions.ValidationError`. -/
structure ValidationError where
  message : String

/-- The outgoing request that `search` hands to `_request` when
validation passes: method, endpoint, query parameters and JSON body. -/
structure SearchRequest where
  method : String
  endpoint : String
  params : List (String × Json)
  body : List (String × Json)

/-- `client.GoetGevondenClient.search`, up to the point where the
request is handed to the transport: validates `from_` and `size`
first, raising `ValidationError` before any request value exists, then
builds the query, parameters and body exactly as the source does. -/
def GoetGevondenClient.search
    (project_id : String)
    (text : Option String)
    (terms : Option (List (String × Json)))
    (date_range : Option IndexRange)
    (value_range : Option IndexRange)
    (aggregations : Option (List (String × Json)))
    (index_name : Option String)
    (from_ : Int := 0)
    (size : Int := 10)
    (fragment_size : Int := 100)
    (sort_by : String := "_score")
    (sort_order : SortOrder := SortOrder.DESC) :
    Except ValidationError SearchRequest :=
  if from_ < 0 then
    Except.error { message := "\x27from_\x27 must be non-negative" }
  else if size < 0 then
    Except.error { message := "\x27size\x27 must be non-negative" }
  else
    let query : IndexQuery :=
      { text := text, terms := terms, date := date_range
      , range := value_range, aggs := aggregations }
    let params : List (String × Json) :=
      [ ("from", Json.num from_)
      , ("size", Json.num size)
      , ("fragmentSize", Json.num fragment_size)
      , ("sortBy", Json.str sort_by)
      , ("sortOrder", Json.str sort_order.value) ]
      ++ (match index_name with
          | some n => [("indexName", Json.str n)]
          | none => [])
    Except.ok
      { method := "POST"
      , endpoint := "/projects/" ++ project_id ++ "/search"
      , params := params
      , body := query.to_dict }

/-- C1: for every JSON object containing a `results` key,
`SearchResult.from_dict` takes the total from the top-level `total`
field (its `value` sub-field when it is a mapping, the value itself
otherwise, 0 when absent), the hits from `results`, and the
aggregations from the top-level `aggs` field (absent when not
present); in particular for `(results: [...], total: (value: N))` the
total is `N` and the hits length equals the `results` length. -/
theorem searchResult_flat_shape (kvs : List (String × Json)) (res : Json)
    (hres : kvs.lookup "results" = some res) :
    ∃ r, SearchResult.from_dict kvs = some r
      ∧ r.total = resolveTotal (dictGet kvs "total" (Json.num 0))
      ∧ (kvs.lookup "total" = none → r.total = Json.num 0)
      ∧ r.hits = res
      ∧ r.aggregations = dictGet kvs "aggs" Json.null
      ∧ (∀ (N : Int) (hl : List Json),
          kvs.lookup "total" = some (Json.obj [("value", Json.num N)]) →
          res = Json.arr hl →
          r.total = Json.num N ∧ ∃ l, r.hits = Json.arr l ∧ l.length = hl.length) := by
  refine ⟨{ total := resolveTotal (dictGet kvs "total" (Json.num 0))
          , hits := dictGet kvs "results" (Json.arr [])
          , aggregations := dictGet kvs "aggs" Json.null
          , raw_response := Json.obj kvs }, ?_, rfl, ?_, ?_, rfl, ?_⟩
  · simp [SearchResult.from_dict, hres]
  · intro h0
    simp [dictGet, h0, resolveTotal]
  · simp [dictGet, hres]
  · intro N hl htot hres2
    refine ⟨?_, hl, by simp [dictGet, hres, hres2], rfl⟩
    simp [dictGet, htot, resolveTotal, List.lookup]

/-- Witness for C1 at the concrete flat response
`(results: [(, )], total: (value: 100))`. -/
theorem searchResult_flat_witness :
    (SearchResult.from_dict
        [("results", Json.arr [Json.obj []]),
         ("total", Json.obj [("value", Json.num 100)])]).map SearchResult.total
      = some (Json.num 100) := by
  obtain ⟨r, h1, _, _, _, _, h6⟩ :=
    searchResult_flat_shape
      [("results", Json.arr [Json.obj []]), ("total", Json.obj [("value", Json.num 100)])]
      (Json.arr [Json.obj []]) rfl
  rw [h1]
  exact congrArg some (h6 100 [Json.obj []] rfl rfl).1

/-- C2: for every JSON object without a `results` key,
`SearchResult.from_dict` reads the `hits` sub-object (default empty
mapping), takes the total from its `total` field with the same
resolution, the hits from its own `hits` field (default empty list),
and the aggregations from the top-level `aggregations` field; in
particular for `(hits: (total: (value: N), hits: [...]))` the total is
`N` and the hits are the inner list. -/
theorem searchResult_nested_shape (kvs hkvs : List (String × Json))
    (hnores : kvs.lookup "results" = none)
    (hhits : dictGet kvs "hits" (Json.obj []) = Json.obj hkvs) :
    ∃ r, SearchResult.from_dict kvs = some r
      ∧ r.total = resolveTotal (dictGet hkvs "total" (Json.num 0))
      ∧ (hkvs.lookup "total" = none → r.total = Json.num 0)
      ∧ r.hits = dictGet hkvs "hits" (Json.arr [])
      ∧ r.aggregations = dictGet kvs "aggregations" Json.null
      ∧ (∀ (N : Int) (hl : List Json),
          hkvs.lookup "total" = some (Json.obj [("value", Json.num N)]) →
          hkvs.lookup "hits" = some (Json.arr hl) →
          r.total = Json.num N ∧ r.hits = Json.arr hl) := by
  refine ⟨{ total := resolveTotal (dictGet hkvs "total" (Json.num 0))
          , hits := dictGet hkvs "hits" (Json.arr [])
          , aggregations := dictGet kvs "aggregations" Json.null
          , raw_response := Json.obj kvs }, ?_, rfl, ?_, rfl, rfl, ?_⟩
  · simp [SearchResult.from_dict, hnores, hhits]
  · intro h0
    simp [dictGet, h0, resolveTotal]
  · intro N hl htot hhit
    exact ⟨by simp [dictGet, htot, resolveTotal, List.lookup],
           by simp [dictGet, hhit]⟩

/-- Witness for C2 at the concrete nested response
`(hits: (total: (value: 42), hits: [(, )]))`. -/
theorem searchResult_nested_witness :
    (SearchResult.from_dict
        [("hits", Json.obj [("total", Json.obj [("value", Json.num 42)]),
                            ("hits", Json.arr [Json.obj []])])]).map SearchResult.total
      = some (Json.num 42) := by
  obtain ⟨r, h1, _, _, _, _, h6⟩ :=
    searchResult_nested_shape
      [("hits", Json.obj [("total", Json.obj [("value", Json.num 42)]),
                          ("hits", Json.arr [Json.obj []])])]
      [("total", Json.obj [("value", Json.num 42)]), ("hits", Json.arr [Json.obj []])]
      rfl rfl
  rw [h1]
  exact congrArg some (h6 42 [Json.obj []] rfl rfl).1

/-- C5: `IndexQuery.to_dict` contains exactly the keys among `text`,
`terms`, `date`, `range`, `aggs` whose field was set and never emits a
null value; `IndexRange.to_dict` always contains `name` and contains
`from` / `to` exactly when the corresponding bound was set, never as
null. -/
theorem query_serialization_selective (q : IndexQuery) (r : IndexRange) :
    (("text" ∈ q.to_dict.map Prod.fst ↔ q.text.isSome)
      ∧ ("terms" ∈ q.to_dict.map Prod.fst ↔ q.terms.isSome)
      ∧ ("date" ∈ q.to_dict.map Prod.fst ↔ q.date.isSome)
      ∧ ("range" ∈ q.to_dict.map Prod.fst ↔ q.range.isSome)
      ∧ ("aggs" ∈ q.to_dict.map Prod.fst ↔ q.aggs.isSome)
      ∧ (∀ k ∈ q.to_dict.map Prod.fst, k ∈ ["text", "terms", "date", "range", "aggs"])
      ∧ (∀ kv ∈ q.to_dict, kv.2 ≠ Json.null))
    ∧ (("name" ∈ r.to_dict.map Prod.fst)
      ∧ ("from" ∈ r.to_dict.map Prod.fst ↔ r.from_value.isSome)
      ∧ ("to" ∈ r.to_dict.map Prod.fst ↔ r.to_value.isSome)
      ∧ (∀ k ∈ r.to_dict.map Prod.fst, k ∈ ["name", "from", "to"])
      ∧ (∀ kv ∈ r.to_dict, kv.2 ≠ Json.null)) := by
  constructor
  · obtain ⟨t, tm, d, rg, ag⟩ := q
    cases t <;> cases tm <;> cases d <;> cases rg <;> cases ag <;>
      simp [IndexQuery.to_dict]
  · obtain ⟨n, fv, tv⟩ := r
    cases fv <;> cases tv <;> simp [IndexRange.to_dict]

/-- Witness for C5 at a concrete partially-set range and query. -/
theorem query_serialization_witness :
    "from" ∈ (IndexRange.to_dict { name := "date", from_value := some "1600" }).map Prod.fst :=
  (query_serialization_selective
      { text := some "Amsterdam" }
      { name := "date", from_value := some "1600" }).2.2.1.mpr rfl

/-- C6 counterexample: for the concrete view configuration
`(scope: "NEITHER")` the parser raises `ValueError` (models as `none`)
instead of defaulting the unrecognized scope to `OVERLAP`. -/
theorem viewScope_unrecognized_counterexample :
    ViewConfiguration.from_dict [("scope", Json.str "NEITHER")] = none
    ∧ (ViewConfiguration.from_dict [("scope", Json.str "NEITHER")]).map
        ViewConfiguration.scope ≠ some ViewScope.OVERLAP :=
  ⟨rfl, by decide⟩

/-- C6 amended: whenever parsing succeeds the scope is one of the two
enumerated values; an absent `scope` field defaults to `OVERLAP`; a
`scope` value that is not one of the enumerated member values makes
parsing fail rather than defaulting. -/
theorem viewScope_amended (kvs : List (String × Json)) :
    (∀ cfg, ViewConfiguration.from_dict kvs = some cfg →
        cfg.scope = ViewScope.OVERLAP ∨ cfg.scope = ViewScope.WITHIN)
  ∧ (kvs.lookup "scope" = none →
        ∀ cfg, ViewConfiguration.from_dict kvs = some cfg → cfg.scope = ViewScope.OVERLAP)
  ∧ (∀ v, kvs.lookup "scope" = some v → ViewScope.ofValue v = none →
        ViewConfiguration.from_dict kvs = none) := by
  have hov : ViewScope.ofValue (Json.str "OVERLAP") = some ViewScope.OVERLAP := rfl
  refine ⟨?_, ?_, ?_⟩
  · intro cfg _
    rcases cfg with ⟨a, sc⟩
    cases sc
    · exact Or.inl rfl
    · exact Or.inr rfl
  · intro hscope cfg hcfg
    have hd : dictGet kvs "scope" (Json.str "OVERLAP") = Json.str "OVERLAP" := by
      simp [dictGet, hscope]
    cases hp : pyIter (dictGet kvs "anno" (Json.arr [])) with
    | none => simp [ViewConfiguration.from_dict, hp] at hcfg
    | some items =>
      cases hm : annoListFromDict items with
      | none => simp [ViewConfiguration.from_dict, hp, hm] at hcfg
      | some anno =>
        simp [ViewConfiguration.from_dict, hp, hm, hd, hov] at hcfg
        subst hcfg
        rfl
  · intro v hv hnone
    have hd : dictGet kvs "scope" (Json.str "OVERLAP") = v := by
      simp [dictGet, hv]
    cases hp : pyIter (dictGet kvs "anno" (Json.arr [])) with
    | none => simp [ViewConfiguration.from_dict, hp]
    | some items =>
      cases hm : annoListFromDict items with
      | none => simp [ViewConfiguration.from_dict, hp, hm]
      | some anno => simp [ViewConfiguration.from_dict, hp, hm, hd, hnone]

/-- Witness for C6 amended at the empty configuration: an absent scope
parses to `OVERLAP`. -/
theorem viewScope_amended_witness :
    (ViewConfiguration.from_dict []).map ViewConfiguration.scope = some ViewScope.OVERLAP := by
  have h0 : ViewConfiguration.from_dict [] =
      some { anno := [], scope := ViewScope.OVERLAP } := rfl
  have h1 := (viewScope_amended []).2.1 rfl { anno := [], scope := ViewScope.OVERLAP } h0
  rw [h0]
  exact congrArg some h1

/-- C7 counterexample: for the concrete flat response
`(results: [], total: "many")` the normalized total is the string
`"many"`, not the claimed fallback 0. -/
theorem total_passthrough_counterexample :
    (SearchResult.from_dict [("results", Json.arr []), ("total", Json.str "many")]).map
        SearchResult.total = some (Json.str "many")
    ∧ Json.str "many" ≠ Json.num 0 :=
  ⟨rfl, fun h => Json.noConfusion h⟩

/-- C7 amended: in both response shapes a `total` field that is not a
mapping is used directly, unchanged — a string or list total passes
through rather than falling back to 0 (only a mapping total resolves
through its `value` sub-field). -/
theorem searchResult_total_passthrough (kvs hkvs : List (String × Json)) (t : Json)
    (hnotobj : ∀ tk, t ≠ Json.obj tk) :
    (∀ res r, kvs.lookup "results" = some res → kvs.lookup "total" = some t →
        SearchResult.from_dict kvs = some r → r.total = t)
  ∧ (∀ r, kvs.lookup "results" = none → dictGet kvs "hits" (Json.obj []) = Json.obj hkvs →
        hkvs.lookup "total" = some t →
        SearchResult.from_dict kvs = some r → r.total = t) := by
  have hrt : resolveTotal t = t := by
    cases t with
    | obj tk => exact absurd rfl (hnotobj tk)
    | null => rfl
    | bool b => rfl
    | num n => rfl
    | str s => rfl
    | arr xs => rfl
  constructor
  · intro res r h1 h2 h3
    simp [SearchResult.from_dict, h1] at h3
    subst h3
    simp [dictGet, h2, hrt]
  · intro r h1 hh h2 h3
    simp [SearchResult.from_dict, h1, hh] at h3
    subst h3
    simp [dictGet, h2, hrt]

/-- Witness for C7 amended at the concrete flat response
`(results: [], total: "many")`. -/
theorem total_passthrough_witness :
    SearchResult.total
        { total := Json.str "many", hits := Json.arr []
        , aggregations := Json.null
        , raw_response := Json.obj [("results", Json.arr []), ("total", Json.str "many")] }
      = Json.str "many" :=
  (searchResult_total_passthrough
      [("results", Json.arr []), ("total", Json.str "many")] [] (Json.str "many")
      (fun _ h => Json.noConfusion h)).1 (Json.arr []) _ rfl rfl rfl

/-- Helper: `_request` on a 404 response raises `NotFoundError` with
status 404 and no payload. -/
theorem request_eq_404 (ep : String) (resp : HttpResponse) (h : resp.status = 404) :
    GoetGevondenClient.request ep resp
      = Except.error (RequestError.notFound
          ⟨"Resource not found: " ++ ep, some 404, none⟩) := by
  simp [GoetGevondenClient.request, h, NotFoundError.make]

/-- Helper: `_request` on a non-404 response with status at least 400
raises `APIError` with the status and the parsed-or-text payload. -/
theorem request_eq_error (ep : String) (resp : HttpResponse)
    (h1 : resp.status ≠ 404) (h2 : 400 ≤ resp.status) :
    GoetGevondenClient.request ep resp
      = Except.error (RequestError.apiError
          ⟨"API error: " ++ toString resp.status, some resp.status,
           some (errorBody resp)⟩) := by
  have hok : ¬ (resp.status < 400) := by omega
  simp [GoetGevondenClient.request, h1, HttpResponse.ok, hok]

/-- Helper: `_request` on an ok response returns `None` for a 204
status or an empty body. -/
theorem request_eq_ok_null (ep : String) (resp : HttpResponse)
    (h1 : resp.status < 400) (h2 : resp.status = 204 ∨ resp.bodyText = "") :
    GoetGevondenClient.request ep resp = Except.ok Json.null := by
  have h404 : resp.status ≠ 404 := by omega
  simp [GoetGevondenClient.request, h404, HttpResponse.ok, h1, h2]

/-- Helper: `_request` on an ok, non-204, non-empty response returns
the parsed JSON body, falling back to the raw text. -/
theorem request_eq_ok_body (ep : String) (resp : HttpResponse)
    (h1 : resp.status < 400) (h2 : resp.status ≠ 204) (h3 : resp.bodyText ≠ "") :
    GoetGevondenClient.request ep resp = Except.ok (parsedBody resp) := by
  have h404 : resp.status ≠ 404 := by omega
  simp [GoetGevondenClient.request, h404, HttpResponse.ok, h1, h2, h3]

/-- Helper: `_request` returns a non-error outcome exactly when the
transport reports the response ok, i.e. the status is below 400. -/
theorem request_isOk_iff (ep : String) (resp : HttpResponse) :
    (∃ v, GoetGevondenClient.request ep resp = Except.ok v) ↔ resp.status < 400 := by
  constructor
  · rintro ⟨v, hv⟩
    by_contra hlt
    push_neg at hlt
    by_cases h404 : resp.status = 404
    · rw [request_eq_404 ep resp h404] at hv
      exact Except.noConfusion hv
    · rw [request_eq_error ep resp h404 hlt] at hv
      exact Except.noConfusion hv
  · intro h
    by_cases h204 : resp.status = 204 ∨ resp.bodyText = ""
    · exact ⟨Json.null, request_eq_ok_null ep resp h h204⟩
    · push_neg at h204
      exact ⟨parsedBody resp, request_eq_ok_body ep resp h h204.1 h204.2⟩

/-- C3 counterexample: a 304 response (non-2xx and non-404) with a
non-empty JSON body is returned as a success by `_request`, not turned
into an API error, because the transport's ok flag covers every status
below 400. -/
theorem error_mapping_counterexample :
    GoetGevondenClient.request "/about" ⟨304, some (Json.num 1), "1"⟩
      = Except.ok (Json.num 1)
    ∧ ¬ (200 ≤ 304 ∧ 304 < 300)
    ∧ (304 : Nat) ≠ 404 :=
  ⟨rfl, by decide, by decide⟩

/-- C3 amended: a 404 raises the not-found error; any status of 400 or
above other than 404 raises the generic API error with the status code
and the parsed-JSON-or-raw-text payload; for statuses below 400
(the transport's ok flag, which includes 3xx) a 204 status or empty
body yields null, otherwise the parsed body; a call succeeds exactly
when the status is below 400 — not exactly when it is 2xx. -/
theorem request_error_mapping (endpoint : String) (resp : HttpResponse) :
    (resp.status = 404 →
        GoetGevondenClient.request endpoint resp
          = Except.error (RequestError.notFound
              ⟨"Resource not found: " ++ endpoint, some 404, none⟩))
  ∧ (resp.status ≠ 404 → 400 ≤ resp.status →
        GoetGevondenClient.request endpoint resp
          = Except.error (RequestError.apiError
              ⟨"API error: " ++ toString resp.status, some resp.status,
               some (errorBody resp)⟩))
  ∧ (resp.status < 400 → resp.status = 204 ∨ resp.bodyText = "" →
        GoetGevondenClient.request endpoint resp = Except.ok Json.null)
  ∧ (resp.status < 400 → resp.status ≠ 204 → resp.bodyText ≠ "" →
        GoetGevondenClient.request endpoint resp = Except.ok (parsedBody resp))
  ∧ ((∃ v, GoetGevondenClient.request endpoint resp = Except.ok v)
        ↔ resp.status < 400) :=
  ⟨request_eq_404 endpoint resp, request_eq_error endpoint resp,
   request_eq_ok_null endpoint resp, request_eq_ok_body endpoint resp,
   request_isOk_iff endpoint resp⟩

/-- Witness for C3 amended at a 404, a 500 with a JSON body, and a
204. -/
theorem request_error_mapping_witness :
    GoetGevondenClient.request "/projects/nonexistent" ⟨404, none, ""⟩
      = Except.error (RequestError.notFound
          ⟨"Resource not found: /projects/nonexistent", some 404, none⟩)
    ∧ GoetGevondenClient.request "/projects"
        ⟨500, some (Json.obj [("error", Json.str "boom")]), "x"⟩
      = Except.error (RequestError.apiError
          ⟨"API error: 500", some 500, some (Json.obj [("error", Json.str "boom")])⟩)
    ∧ GoetGevondenClient.request "/projects" ⟨204, none, ""⟩ = Except.ok Json.null :=
  ⟨(request_error_mapping "/projects/nonexistent" ⟨404, none, ""⟩).1 rfl,
   (request_error_mapping "/projects"
      ⟨500, some (Json.obj [("error", Json.str "boom")]), "x"⟩).2.1
      (by decide) (by decide),
   (request_error_mapping "/projects" ⟨204, none, ""⟩).2.2.1 (by decide) (Or.inl rfl)⟩

/-- C4: a search call with a negative `from_` or `size` fails with the
corresponding `ValidationError` before any request value is built (the
error branch of the model carries no request); with non-negative
`from_` and `size` validation passes and an outgoing request is
produced. -/
theorem search_validates_pagination
    (project_id : String) (text : Option String)
    (terms : Option (List (String × Json)))
    (date_range value_range : Option IndexRange)
    (aggregations : Option (List (String × Json)))
    (index_name : Option String)
    (from_ size fragment_size : Int) (sort_by : String) (sort_order : SortOrder) :
    (from_ < 0 →
        GoetGevondenClient.search project_id text terms date_range value_range
            aggregations index_name from_ size fragment_size sort_by sort_order
          = Except.error { message := "\x27from_\x27 must be non-negative" })
  ∧ (0 ≤ from_ → size < 0 →
        GoetGevondenClient.search project_id text terms date_range value_range
            aggregations index_name from_ size fragment_size sort_by sort_order
          = Except.error { message := "\x27size\x27 must be non-negative" })
  ∧ (0 ≤ from_ → 0 ≤ size →
        ∃ req, GoetGevondenClient.search project_id text terms date_range value_range
            aggregations index_name from_ size fragment_size sort_by sort_order
          = Except.ok req) := by
  refine ⟨?_, ?_, ?_⟩
  · intro h
    simp [GoetGevondenClient.search, h]
  · intro h1 h2
    have h1n : ¬ from_ < 0 := by omega
    simp [GoetGevondenClient.search, h1n, h2]
  · intro h1 h2
    have h1n : ¬ from_ < 0 := by omega
    have h2n : ¬ size < 0 := by omega
    unfold GoetGevondenClient.search
    rw [if_neg h1n, if_neg h2n]
    exact ⟨_, rfl⟩

/-- Witness for C4 at `from_ = -1` and at `size = -1`. -/
theorem search_validates_witness :
    GoetGevondenClient.search "republic" none none none none none none (-1) 10 100
        "_score" SortOrder.DESC
      = Except.error { message := "\x27from_\x27 must be non-negative" }
    ∧ GoetGevondenClient.search "republic" none none none none none none 0 (-1) 100
        "_score" SortOrder.DESC
      = Except.error { message := "\x27size\x27 must be non-negative" } :=
  ⟨(search_validates_pagination "republic" none none none none none none (-1) 10 100
      "_score" SortOrder.DESC).1 (by decide),
   (search_validates_pagination "republic" none none none none none none 0 (-1) 100
      "_score" SortOrder.DESC).2.1 (by decide) (by decide)⟩

/-- C8 counterexample: a concrete annotation retrieval with supplied
body id `"b-1"` and response `(bodyType: "Letter")` returns the raw
response object unchanged; the object contains the string `"b-1"`
nowhere, so the result cannot report the supplied body id — the claimed
normalization is not applied by `get_annotations`. -/
theorem annotations_counterexample :
    GoetGevondenClient.get_annotations "republic" "b-1"
        ⟨200, some (Json.obj [("bodyType", Json.str "Letter")]), "x"⟩
      = Except.ok (Json.obj [("bodyType", Json.str "Letter")])
    ∧ Json.containsStr (Json.obj [("bodyType", Json.str "Letter")]) "b-1" = false
    ∧ "b-1" ≠ "" :=
  ⟨rfl, by decide, by decide⟩

/-- C8 amended: the normalization helper ` Annotation.from_dict` maps a
raw object as the claim describes (body type from `bodyType` default
empty, records from `annotations` default empty list, body id from the
supplied argument when non-empty else from `bodyId` default empty), but
the retrieval call `get_annotations` does not apply it: it returns the
shared request path's parsed response unchanged. -/
theorem annotation_mapping_amended (kvs : List (String × Json)) (bid : String) :
    (( Annotation.from_dict kvs bid).body_type = dictGet kvs "bodyType" (Json.str ""))
  ∧ (( Annotation.from_dict kvs bid).annotations = dictGet kvs "annotations" (Json.arr []))
  ∧ (bid ≠ "" → ( Annotation.from_dict kvs bid).body_id = Json.str bid)
  ∧ (( Annotation.from_dict kvs "").body_id = dictGet kvs "bodyId" (Json.str ""))
  ∧ (∀ pid resp, GoetGevondenClient.get_annotations pid bid resp
        = GoetGevondenClient.request ("/projects/" ++ pid ++ "/" ++ bid) resp) := by
  refine ⟨rfl, rfl, ?_, rfl, fun pid resp => rfl⟩
  intro h
  simp [ Annotation.from_dict, h]

/-- Witness for C8 amended: the helper prefers the supplied body id
over the response field. -/
theorem annotation_mapping_witness :
    ( Annotation.from_dict [("bodyId", Json.str "resp-id")] "b-2").body_id
      = Json.str "b-2" :=
  (annotation_mapping_amended [("bodyId", Json.str "resp-id")] "b-2").2.2.1 (by decide)

/-- C9: `get_home_page` returns the response body text unconditionally,
for every response whatever its status code (404 and other error
statuses included); no not-found or API-error outcome is possible. -/
theorem home_page_returns_text (resp : HttpResponse) :
    GoetGevondenClient.get_home_page resp = Except.ok resp.bodyText := rfl

/-- C10: on a 404 the shared request path raises the not-found error
with status code 404 and `response = none` — the 404 body is discarded
unparsed — whereas any other error status of 400 or above attaches the
parsed-or-text body as the error payload. -/
theorem notFound_discards_body (ep : String) (resp resp2 : HttpResponse)
    (h : resp.status = 404) (h2a : resp2.status ≠ 404) (h2b : 400 ≤ resp2.status) :
    GoetGevondenClient.request ep resp
      = Except.error (RequestError.notFound
          ⟨"Resource not found: " ++ ep, some 404, none⟩)
    ∧ GoetGevondenClient.request ep resp2
      = Except.error (RequestError.apiError
          ⟨"API error: " ++ toString resp2.status, some resp2.status,
           some (errorBody resp2)⟩) :=
  ⟨request_eq_404 ep resp h, request_eq_error ep resp2 h2a h2b⟩

/-- Witness for C10: a 404 whose body holds a JSON string still yields
a payload-free not-found error, while a 500 carries its body. -/
theorem notFound_discards_body_witness :
    GoetGevondenClient.request "/a" ⟨404, some (Json.str "detail"), "detail"⟩
      = Except.error (RequestError.notFound
          ⟨"Resource not found: /a", some 404, none⟩)
    ∧ GoetGevondenClient.request "/a" ⟨500, some (Json.str "boom"), "boom"⟩
      = Except.error (RequestError.apiError
          ⟨"API error: 500", some 500, some (Json.str "boom")⟩) :=
  notFound_discards_body "/a" ⟨404, some (Json.str "detail"), "detail"⟩
    ⟨500, some (Json.str "boom"), "boom"⟩ rfl (by decide) (by decide)

end GoetGevonden
